import Mathlib

/-!
Verification of the notebook `multi_agent_ecosistem.ipynb` from the
repository autogen-groq-multiagent-analyser.

The notebook defines three pieces of its own logic, embedded here:
  * `termination_message` — the termination predicate,
  * `read_txt` — the file-reading tool,
  * `custom_speaker_selection` — the speaker-selection rule chain,
plus configuration data: five agents, a group chat over them, and three
tool registrations that all name the user proxy as executor.

Python dictionaries of messages are embedded as a structure of optional
fields; a missing key models the key being absent from the dictionary.
Python runtime failures (KeyError, IndexError, AttributeError,
StopIteration, I/O errors) are embedded as an `Except` error type.
-/

/-- A Python runtime value, restricted to the shapes the message
dictionaries of the notebook hold at the keys the code touches:
strings, the value None, and lists of tool-call records. -/
inductive PyValue where
  | str (s : String)
  | pyNone
  | list (xs : List String)
deriving DecidableEq

/-- The Python runtime failures the embedded code can raise. -/
inductive PyError where
  | indexError
  | keyError (key : String)
  | attributeError
  | stopIteration
  | ioError (path : String)
deriving DecidableEq

/-- Python truthiness of a value: a string is truthy iff non-empty, None is
falsy, a list is truthy iff non-empty. -/
def pyTruthy : PyValue → Bool
  | .str s => s != ""
  | .pyNone => false
  | .list xs => xs != []

/-- Python `.lower()` on a string: lowercase each character. The case
mapping is the basic-latin one, which covers every letter the notebook
compares against; it maps over the character list so that it evaluates by
kernel reduction. -/
def strLower (s : String) : String := ⟨s.data.map Char.toLower⟩

/-- Python attribute access `.lower()` on an arbitrary value: defined on
strings, and an AttributeError on every other value. -/
def pyLower : PyValue → Except PyError String
  | .str s => .ok (strLower s)
  | _ => .error .attributeError

/-- A transcript message: the keys of the message dictionaries that the
notebook reads. A `none` field models the key being absent. -/
structure Message where
  name : Option String
  content : Option PyValue
  tool_calls : Option PyValue
deriving DecidableEq

/-- `termination_message(msg)`: looks up `content` with default the empty
string, lowercases it, and tests whether it contains the substring
`terminate`. Python substring membership is list-infix containment of the
character sequences. -/
def termination_message (msg : Message) : Except PyError Bool :=
  match pyLower (msg.content.getD (PyValue.str "")) with
  | .ok content => .ok (decide ("terminate".data <:+: content.data))
  | .error e => .error e

/-- An agent, identified by its configured name. The notebook also attaches
free-text descriptions, system messages and model configurations to each
agent; no logic of the repository reads those fields, so the embedding
keeps only the name. -/
structure Agent where
  name : String
deriving DecidableEq

/-- The group chat state: the participant list and the transcript. -/
structure GroupChat where
  agents : List Agent
  messages : List Message
deriving DecidableEq

/-- Python `next(agent for agent in agents if agent.name == target)`: the
first agent with the given name, or a StopIteration error when the
generator is exhausted. -/
def nextAgentNamed (agents : List Agent) (target : String) : Except PyError Agent :=
  match agents.find? (fun a => a.name == target) with
  | some a => .ok a
  | none => .error .stopIteration

/-- The value `custom_speaker_selection` returns: an agent, or the string
literal `auto` that defers to the framework selection. -/
inductive SpeakerChoice where
  | agent (a : Agent)
  | auto
deriving DecidableEq

/-- The lowercased names the third routing rule checks the last speaker
against (`agents_to_check` in the notebook). -/
def agents_to_check : List String :=
  ["cv analyser", "skills extractor", "courses recommender"]

/-- `groupchat.messages[-2] if len(groupchat.messages) > 1 else None`. -/
def penultimateMessage (groupchat : GroupChat) : Option Message :=
  if groupchat.messages.length > 1 then groupchat.messages.reverse.get? 1 else none

/-- Python dictionary indexing `m["name"]`: the value, or a KeyError when
the key is absent. -/
def lookupName (m : Message) : Except PyError String :=
  match m.name with
  | some n => .ok n
  | none => .error (.keyError "name")

/-- `penultimate_message["name"] if penultimate_message else None`. -/
def penultimateSpeakerName (groupchat : GroupChat) : Except PyError (Option String) :=
  match penultimateMessage groupchat with
  | some m => (lookupName m).map some
  | none => .ok none

/-- The guard of the second routing rule: the last speaker (lowercased) is
the user, and the penultimate speaker name is truthy and its lowercase is
neither the user nor the resolution checker. -/
def routeBackGuard (last_speaker_name : String) (penultimate_speaker_name : Option String) : Bool :=
  last_speaker_name == "user" &&
    (match penultimate_speaker_name with
     | some n => n != "" && !(["user", "resolution checker agent"].contains (strLower n))
     | none => false)

/-- `custom_speaker_selection(last_speaker, groupchat)`: reads the last
message (IndexError on an empty transcript) and the penultimate speaker
name, then applies the three routing rules in order and otherwise returns
the literal `auto`. -/
def custom_speaker_selection (last_speaker : Agent) (groupchat : GroupChat) :
    Except PyError SpeakerChoice :=
  match groupchat.messages.getLast? with
  | none => .error .indexError
  | some last_message =>
    match penultimateSpeakerName groupchat with
    | .error e => .error e
    | .ok pname =>
      let last_speaker_name := strLower last_speaker.name
      if pyTruthy (last_message.tool_calls.getD (PyValue.str "")) then
        (nextAgentNamed groupchat.agents "User").map SpeakerChoice.agent
      else if routeBackGuard last_speaker_name pname then
        (nextAgentNamed groupchat.agents (pname.getD "")).map SpeakerChoice.agent
      else if agents_to_check.contains last_speaker_name then
        (nextAgentNamed groupchat.agents "Resolution Checker Agent").map SpeakerChoice.agent
      else
        .ok SpeakerChoice.auto

/-- The state-threaded form of `custom_speaker_selection`: the body of the
Python function contains no assignment to the group chat, its message
list, its agent list or any agent, so the outgoing state is the incoming
one. -/
def custom_speaker_selection_step (last_speaker : Agent) (groupchat : GroupChat) :
    Except PyError SpeakerChoice × GroupChat :=
  (custom_speaker_selection last_speaker groupchat, groupchat)

/-- The user proxy agent that executes tool calls. -/
def user_proxy : Agent := ⟨"User"⟩

/-- Agent 1: CV Analyser. -/
def cv_analyser : Agent := ⟨"CV Analyser"⟩

/-- Agent 2: Skills Extractor. -/
def skills_extractor : Agent := ⟨"Skills Extractor"⟩

/-- Agent 3: Courses Recommender. -/
def courses_recommender : Agent := ⟨"Courses recommender"⟩

/-- Agent 4: Resolution Checker Agent. -/
def resolution_checker : Agent := ⟨"Resolution Checker Agent"⟩

/-- The participant list the group chat is constructed with. -/
def groupchat_agents : List Agent :=
  [user_proxy, cv_analyser, skills_extractor, courses_recommender, resolution_checker]

/-- An open file: reading it yields its full text contents. -/
structure FileHandle where
  contents : String

/-- `file.read()` on an open text file: the whole contents in one piece. -/
def FileHandle.readAll (f : FileHandle) : String := f.contents

/-- The environment seen by `open(path, "r")`: for each path, either an
open handle on its full contents or the I/O failure raised at open. -/
abbrev FileSystem := String → Except PyError FileHandle

/-- `read_txt(path)`: `with open(path, "r") as file: return file.read()`.
No handler surrounds the call, so a failure of the open is returned as
that same failure. -/
def read_txt (fs : FileSystem) (path : String) : Except PyError String :=
  match fs path with
  | .ok file => .ok file.readAll
  | .error e => .error e

/-- One `register_function(...)` call: the registered tool together with
its caller, executor, exposed name and description. -/
structure ToolRegistration where
  tool : FileSystem → String → Except PyError String
  caller : Agent
  executor : Agent
  name : String
  description : String

/-- The three `register_function` calls of the notebook, in order. -/
def tool_registrations : List ToolRegistration :=
  [⟨read_txt, cv_analyser, user_proxy, "read_txt_cv_analyse",
      "Read the profile of the user"⟩,
   ⟨read_txt, courses_recommender, user_proxy, "read_txt_courses",
      "Read available courses and/or the profile of the user"⟩,
   ⟨read_txt, skills_extractor, user_proxy, "read_txt_cv_skills",
      "Read the profile of the user"⟩]

/-- C1: for a message whose content field holds a string s,
termination_message returns true exactly when the lowercased s contains
the substring terminate, with no anchoring or word-boundary requirement. -/
theorem termination_message_iff_contains (msg : Message) (s : String)
    (h : msg.content = some (PyValue.str s)) :
    termination_message msg = .ok true ↔ "terminate".data <:+: (strLower s).data := by
  simp [termination_message, pyLower, h]

/-- Witness for C1 at a concrete message. -/
theorem termination_message_iff_contains_witness :
    termination_message ⟨some "User", some (PyValue.str "All done. TERMINATE"), none⟩ = .ok true ↔
      "terminate".data <:+: (strLower "All done. TERMINATE").data :=
  termination_message_iff_contains _ "All done. TERMINATE" rfl

/-- C8: termination_message returns false when the content key is absent
(the lookup defaults to the empty string), raises AttributeError when the
content key holds the value None, and more generally raises on every
non-string content value; it is total exactly on messages whose content is
a string or absent. -/
theorem termination_message_totality :
    (∀ msg : Message, msg.content = none → termination_message msg = .ok false) ∧
    (∀ msg : Message, msg.content = some PyValue.pyNone →
      termination_message msg = .error PyError.attributeError) ∧
    (∀ (msg : Message) (v : PyValue), msg.content = some v → (∀ s, v ≠ PyValue.str s) →
      termination_message msg = .error PyError.attributeError) := by
  refine ⟨fun msg h => ?_, fun msg h => ?_, fun msg v h hv => ?_⟩
  · simp [termination_message, pyLower, h]
    decide
  · simp [termination_message, pyLower, h]
  · cases v with
    | str s => exact absurd rfl (hv s)
    | pyNone => simp [termination_message, pyLower, h]
    | list xs => simp [termination_message, pyLower, h]

/-- Witness for C8 at concrete messages: one with no content key, one with
content None. -/
theorem termination_message_totality_witness :
    termination_message ⟨some "User", none, none⟩ = .ok false ∧
      termination_message ⟨some "User", some PyValue.pyNone, none⟩ =
        .error PyError.attributeError :=
  ⟨termination_message_totality.1 _ rfl, termination_message_totality.2.1 _ rfl⟩

/-- C6: read_txt returns exactly the full contents of the file when the
open succeeds, and returns the very failure the open raised when it fails,
unchanged and unwrapped. -/
theorem read_txt_passthrough (fs : FileSystem) (path : String) :
    (∀ file : FileHandle, fs path = .ok file → read_txt fs path = .ok file.contents) ∧
    (∀ e : PyError, fs path = .error e → read_txt fs path = .error e) := by
  refine ⟨fun file h => ?_, fun e h => ?_⟩
  · simp [read_txt, h, FileHandle.readAll]
  · simp [read_txt, h]

/-- Witness for C6 on a concrete one-file file system. -/
theorem read_txt_passthrough_witness :
    read_txt
        (fun p => if p = "data/cv.txt" then .ok ⟨"cv text"⟩ else .error (.ioError p))
        "data/cv.txt" = .ok "cv text" ∧
      read_txt
        (fun p => if p = "data/cv.txt" then .ok ⟨"cv text"⟩ else .error (.ioError p))
        "data/courses.txt" = .error (.ioError "data/courses.txt") :=
  ⟨(read_txt_passthrough _ "data/cv.txt").1 ⟨"cv text"⟩ rfl,
   (read_txt_passthrough _ "data/courses.txt").2 _ rfl⟩

/-- C9: on an empty transcript custom_speaker_selection raises IndexError
from indexing the last message; on a one-message transcript the
penultimate message and speaker name are None, so the guard of the
route-back rule is false and that rule can never fire. -/
theorem speaker_selection_needs_messages :
    (∀ (last_speaker : Agent) (gc : GroupChat), gc.messages = [] →
      custom_speaker_selection last_speaker gc = .error PyError.indexError) ∧
    (∀ gc : GroupChat, gc.messages.length = 1 → penultimateMessage gc = none) ∧
    (∀ gc : GroupChat, gc.messages.length = 1 → penultimateSpeakerName gc = .ok none) ∧
    (∀ s : String, routeBackGuard s none = false) := by
  refine ⟨fun last_speaker gc h => ?_, fun gc h => ?_, fun gc h => ?_, fun s => ?_⟩
  · simp [custom_speaker_selection, h]
  · simp [penultimateMessage, h]
  · simp [penultimateSpeakerName, penultimateMessage, h]
  · simp [routeBackGuard]

/-- Witness for C9 at a concrete empty group chat and one-message chat. -/
theorem speaker_selection_needs_messages_witness :
    custom_speaker_selection user_proxy ⟨groupchat_agents, []⟩ = .error PyError.indexError ∧
      penultimateSpeakerName ⟨groupchat_agents, [⟨some "User", some (PyValue.str "hi"), none⟩]⟩ =
        .ok none ∧
      routeBackGuard "user" none = false :=
  ⟨speaker_selection_needs_messages.1 user_proxy _ rfl,
   speaker_selection_needs_messages.2.2.1 _ rfl,
   speaker_selection_needs_messages.2.2.2 "user"⟩

/-- C10: custom_speaker_selection is a pure observer: its state-threaded
form leaves the transcript, the agent list and hence the whole group chat
unchanged, and two invocations on equal arguments return equal results. -/
theorem speaker_selection_pure :
    (∀ (last_speaker : Agent) (gc : GroupChat),
      (custom_speaker_selection_step last_speaker gc).2 = gc) ∧
    (∀ (a b : Agent) (gc gc2 : GroupChat), a = b → gc = gc2 →
      custom_speaker_selection_step a gc = custom_speaker_selection_step b gc2) := by
  refine ⟨fun last_speaker gc => rfl, fun a b gc gc2 h h2 => ?_⟩
  rw [h, h2]

/-- Witness for C10 at a concrete state. -/
theorem speaker_selection_pure_witness :
    (custom_speaker_selection_step user_proxy ⟨groupchat_agents, []⟩).2 =
        ⟨groupchat_agents, []⟩ ∧
      custom_speaker_selection_step user_proxy ⟨groupchat_agents, []⟩ =
        custom_speaker_selection_step user_proxy ⟨groupchat_agents, []⟩ :=
  ⟨speaker_selection_pure.1 user_proxy _, speaker_selection_pure.2 _ _ _ _ rfl rfl⟩

deriving instance DecidableEq for Except

/-- A message sitting at the penultimate position belongs to the transcript. -/
lemma penultimateMessage_mem (gc : GroupChat) (m : Message)
    (h : penultimateMessage gc = some m) : m ∈ gc.messages := by
  unfold penultimateMessage at h
  split at h
  · exact List.mem_reverse.mp (List.get?_mem h)
  · exact absurd h (by simp)

/-- When every transcript message carries a name, computing the
penultimate speaker name raises no KeyError. -/
lemma penultimateSpeakerName_isOk (gc : GroupChat)
    (hwf : ∀ m ∈ gc.messages, m.name ≠ none) :
    ∃ pn, penultimateSpeakerName gc = .ok pn := by
  cases h : penultimateMessage gc with
  | none => exact ⟨none, by simp [penultimateSpeakerName, h]⟩
  | some m =>
    have hm := hwf m (penultimateMessage_mem gc m h)
    cases hn : m.name with
    | none => exact absurd hn hm
    | some n => exact ⟨some n, by simp [penultimateSpeakerName, h, lookupName, hn, Except.map]⟩

/-- The agent the generator search returns bears the searched name. -/
lemma find?_agent_name (agents : List Agent) (target : String) (a : Agent)
    (h : agents.find? (fun x => x.name == target) = some a) : a.name = target := by
  have hp := List.find?_some h
  simpa using hp

/-- C2: whenever the last transcript message has a truthy tool_calls
field, custom_speaker_selection returns the first group-chat agent named
User, whoever the last speaker was; the rule is checked before every
other routing rule. The transcript is well-formed: each of its messages
carries a name. -/
theorem speaker_selection_tool_call_routes_to_user
    (last_speaker : Agent) (gc : GroupChat) (last_message : Message) (u : Agent)
    (hlast : gc.messages.getLast? = some last_message)
    (hwf : ∀ m ∈ gc.messages, m.name ≠ none)
    (htc : pyTruthy (last_message.tool_calls.getD (PyValue.str "")) = true)
    (hu : gc.agents.find? (fun a => a.name == "User") = some u) :
    custom_speaker_selection last_speaker gc = .ok (SpeakerChoice.agent u) ∧
      u.name = "User" := by
  obtain ⟨pn, hpn⟩ := penultimateSpeakerName_isOk gc hwf
  refine ⟨?_, find?_agent_name _ _ _ hu⟩
  simp [custom_speaker_selection, hlast, hpn, htc, nextAgentNamed, hu, Except.map]

/-- Witness for C2: the Skills Extractor just issued a tool call, and the
selection hands the turn to the user proxy. -/
theorem speaker_selection_tool_call_routes_to_user_witness :
    custom_speaker_selection skills_extractor
        ⟨groupchat_agents,
         [⟨some "User", some (PyValue.str "Extract the skills"), none⟩,
          ⟨some "Skills Extractor", none, some (PyValue.list ["read_txt_cv_skills"])⟩]⟩ =
      .ok (SpeakerChoice.agent user_proxy) ∧ user_proxy.name = "User" :=
  speaker_selection_tool_call_routes_to_user skills_extractor _ _ user_proxy rfl
    (by decide) rfl rfl

/-- A two-message state: the Skills Extractor spoke, then the CV Analyser
spoke with no tool call, so the CV Analyser is the last speaker and the
Skills Extractor the penultimate one. -/
def skills_then_cv_state : GroupChat :=
  ⟨groupchat_agents,
   [⟨some "Skills Extractor", some (PyValue.str "Python, SQL"), none⟩,
    ⟨some "CV Analyser", some (PyValue.str "analysis done"), none⟩]⟩

/-- Counterexample to C3 as stated: the transcript has two messages, the
last message carries no tool call, the penultimate speaker is the Skills
Extractor (a task agent), yet the selection does not route back to the
Skills Extractor: because the last speaker is the CV Analyser rather than
the user proxy, the third rule fires and the Resolution Checker Agent is
chosen instead. -/
theorem speaker_selection_penultimate_counterexample :
    skills_then_cv_state.messages.length = 2 ∧
    (skills_then_cv_state.messages.getLast?.map
        (fun m => pyTruthy (m.tool_calls.getD (PyValue.str "")))) = some false ∧
    ((skills_then_cv_state.messages.reverse.get? 1).bind Message.name) =
      some "Skills Extractor" ∧
    strLower "Skills Extractor" ∈ agents_to_check ∧
    custom_speaker_selection cv_analyser skills_then_cv_state =
      .ok (SpeakerChoice.agent resolution_checker) ∧
    custom_speaker_selection cv_analyser skills_then_cv_state ≠
      .ok (SpeakerChoice.agent skills_extractor) := by
  decide

/-- A name whose lowercase is a task-agent name is neither empty nor one
of the two names the route-back guard excludes. -/
lemma task_name_not_reserved (pn : String) (htask : strLower pn ∈ agents_to_check) :
    pn ≠ "" ∧ strLower pn ≠ "user" ∧ strLower pn ≠ "resolution checker agent" := by
  refine ⟨fun he => ?_, ?_, ?_⟩
  · subst he
    exact absurd htask (by decide)
  all_goals
    simp only [agents_to_check, List.mem_cons, List.not_mem_nil, or_false] at htask
    rcases htask with h | h | h <;> rw [h] <;> decide

/-- C3 amended: when the transcript has at least two messages, the last
message carries no tool call, the last speaker is the user proxy, and the
penultimate speaker is one of the three task agents, the selection routes
back to the agent that produced the penultimate message. -/
theorem speaker_selection_route_back
    (last_speaker : Agent) (gc : GroupChat) (last_message pm : Message)
    (pn : String) (a : Agent)
    (hlen : 1 < gc.messages.length)
    (hlast : gc.messages.getLast? = some last_message)
    (htc : pyTruthy (last_message.tool_calls.getD (PyValue.str "")) = false)
    (hls : strLower last_speaker.name = "user")
    (hpm : gc.messages.reverse.get? 1 = some pm)
    (hpn : pm.name = some pn)
    (htask : strLower pn ∈ agents_to_check)
    (ha : gc.agents.find? (fun x => x.name == pn) = some a) :
    custom_speaker_selection last_speaker gc = .ok (SpeakerChoice.agent a) ∧
      a.name = pn := by
  have hpm2 : penultimateMessage gc = some pm := by
    unfold penultimateMessage
    rw [if_pos hlen]
    exact hpm
  have hpen : penultimateSpeakerName gc = .ok (some pn) := by
    simp only [penultimateSpeakerName, hpm2, lookupName, hpn, Except.map]
  have hg : routeBackGuard (strLower last_speaker.name) (some pn) = true := by
    obtain ⟨h1, h2, h3⟩ := task_name_not_reserved pn htask
    simp [routeBackGuard, hls, h1, h2, h3]
  refine ⟨?_, find?_agent_name _ _ _ ha⟩
  simp [custom_speaker_selection, hlast, hpen, htc, hg, nextAgentNamed, ha, Except.map]

/-- Witness for the amended C3: the user proxy just returned a tool result
after the Courses Recommender called the tool, and the selection routes
back to the Courses Recommender. -/
theorem speaker_selection_route_back_witness :
    custom_speaker_selection user_proxy
        ⟨groupchat_agents,
         [⟨some "Courses recommender", none, some (PyValue.list ["read_txt_courses"])⟩,
          ⟨some "User", some (PyValue.str "course list text"), none⟩]⟩ =
      .ok (SpeakerChoice.agent courses_recommender) ∧
      courses_recommender.name = "Courses recommender" :=
  speaker_selection_route_back user_proxy _ _
    ⟨some "Courses recommender", none, some (PyValue.list ["read_txt_courses"])⟩
    "Courses recommender" courses_recommender (by decide) rfl rfl (by decide) rfl rfl
    (by decide) rfl

/-- C4: when the last message carries no tool call and the lowercased name
of the last speaker is one of the three task-agent names, the selection
returns the first agent named Resolution Checker Agent. The transcript is
well-formed: each of its messages carries a name. -/
theorem speaker_selection_task_agent_to_checker
    (last_speaker : Agent) (gc : GroupChat) (last_message : Message) (r : Agent)
    (hlast : gc.messages.getLast? = some last_message)
    (hwf : ∀ m ∈ gc.messages, m.name ≠ none)
    (htc : pyTruthy (last_message.tool_calls.getD (PyValue.str "")) = false)
    (hls : strLower last_speaker.name ∈ agents_to_check)
    (hr : gc.agents.find? (fun x => x.name == "Resolution Checker Agent") = some r) :
    custom_speaker_selection last_speaker gc = .ok (SpeakerChoice.agent r) ∧
      r.name = "Resolution Checker Agent" := by
  obtain ⟨pn, hpn⟩ := penultimateSpeakerName_isOk gc hwf
  have hnu : (strLower last_speaker.name == "user") = false := by
    simpa using (task_name_not_reserved _ hls).2.1
  have hg : routeBackGuard (strLower last_speaker.name) pn = false := by
    simp [routeBackGuard, hnu]
  have hcon : agents_to_check.contains (strLower last_speaker.name) = true := by
    simpa using hls
  refine ⟨?_, find?_agent_name _ _ _ hr⟩
  simp [custom_speaker_selection, hlast, hpn, htc, hg, hcon, hls, nextAgentNamed, hr,
    Except.map]

/-- Witness for C4: the Courses Recommender spoke last with no tool call,
and the turn goes to the Resolution Checker Agent. -/
theorem speaker_selection_task_agent_to_checker_witness :
    custom_speaker_selection courses_recommender
        ⟨groupchat_agents,
         [⟨some "Courses recommender", some (PyValue.str "Here are the courses"), none⟩]⟩ =
      .ok (SpeakerChoice.agent resolution_checker) ∧
      resolution_checker.name = "Resolution Checker Agent" :=
  speaker_selection_task_agent_to_checker courses_recommender _ _ resolution_checker rfl
    (by decide) rfl (by decide) rfl

/-- C5: when the last message carries no tool call, the route-back guard
is false, and the lowercased last-speaker name is not a task-agent name,
the selection returns the literal auto, deferring to the framework. -/
theorem speaker_selection_defaults_to_auto
    (last_speaker : Agent) (gc : GroupChat) (last_message : Message) (pn : Option String)
    (hlast : gc.messages.getLast? = some last_message)
    (hpn : penultimateSpeakerName gc = .ok pn)
    (htc : pyTruthy (last_message.tool_calls.getD (PyValue.str "")) = false)
    (hrb : routeBackGuard (strLower last_speaker.name) pn = false)
    (hta : agents_to_check.contains (strLower last_speaker.name) = false) :
    custom_speaker_selection last_speaker gc = .ok SpeakerChoice.auto := by
  have hta2 : strLower last_speaker.name ∉ agents_to_check := by simpa using hta
  simp [custom_speaker_selection, hlast, hpn, htc, hrb, hta, hta2]

/-- Witness for C5: the Resolution Checker Agent answered CONTINUE, no
rule applies, and the selection defers to the framework. -/
theorem speaker_selection_defaults_to_auto_witness :
    custom_speaker_selection resolution_checker
        ⟨groupchat_agents,
         [⟨some "Resolution Checker Agent", some (PyValue.str "CONTINUE"), none⟩]⟩ =
      .ok SpeakerChoice.auto :=
  speaker_selection_defaults_to_auto resolution_checker _ _ none rfl rfl rfl
    (by decide) (by decide)

/-- An agent produced by the generator search belongs to the searched list. -/
lemma nextAgentNamed_mem (agents : List Agent) (target : String) (a : Agent)
    (h : (nextAgentNamed agents target).map SpeakerChoice.agent =
      .ok (SpeakerChoice.agent a)) : a ∈ agents := by
  unfold nextAgentNamed at h
  cases hf : agents.find? (fun x => x.name == target) with
  | none =>
    rw [hf] at h
    exact Except.noConfusion h
  | some b =>
    rw [hf] at h
    simp [Except.map] at h
    rw [← h]
    exact List.mem_of_find?_eq_some hf

/-- Every agent custom_speaker_selection can return is drawn from the
agent list of the group chat it is given. -/
lemma custom_speaker_selection_agent_mem (last_speaker : Agent) (gc : GroupChat) (a : Agent)
    (h : custom_speaker_selection last_speaker gc = .ok (SpeakerChoice.agent a)) :
    a ∈ gc.agents := by
  unfold custom_speaker_selection at h
  dsimp only at h
  split at h
  · exact Except.noConfusion h
  · split at h
    · exact Except.noConfusion h
    · split at h
      · exact nextAgentNamed_mem _ _ _ h
      · split at h
        · exact nextAgentNamed_mem _ _ _ h
        · split at h
          · exact nextAgentNamed_mem _ _ _ h
          · simp at h

/-- C7: the group chat is configured with exactly the five named
participants; every one of the three tool registrations names the user
proxy as executor; and on the configured participant list every agent the
selection function can return is one of the five (its only other value
being the literal auto, which the return type makes explicit). -/
theorem groupchat_configuration :
    groupchat_agents.map Agent.name =
      ["User", "CV Analyser", "Skills Extractor", "Courses recommender",
       "Resolution Checker Agent"] ∧
    groupchat_agents.length = 5 ∧
    (∀ r ∈ tool_registrations, r.executor = user_proxy ∧ r.executor.name = "User") ∧
    (∀ (last_speaker : Agent) (msgs : List Message) (a : Agent),
      custom_speaker_selection last_speaker ⟨groupchat_agents, msgs⟩ =
        .ok (SpeakerChoice.agent a) → a ∈ groupchat_agents) := by
  refine ⟨rfl, rfl, ?_, ?_⟩
  · intro r hr
    simp only [tool_registrations, List.mem_cons, List.not_mem_nil, or_false] at hr
    rcases hr with h | h | h <;> subst h <;> exact ⟨rfl, rfl⟩
  · intro last_speaker msgs a h
    exact custom_speaker_selection_agent_mem _ _ _ h

/-- Witness for C7: the first registration is executed by the user proxy,
and a concrete selection lands on one of the five participants. -/
theorem groupchat_configuration_witness :
    (⟨read_txt, cv_analyser, user_proxy, "read_txt_cv_analyse",
        "Read the profile of the user"⟩ : ToolRegistration).executor = user_proxy ∧
      resolution_checker ∈ groupchat_agents :=
  ⟨(groupchat_configuration.2.2.1 _ (List.mem_cons_self _ _)).1,
   groupchat_configuration.2.2.2 courses_recommender
     [⟨some "Courses recommender", some (PyValue.str "done"), none⟩]
     resolution_checker (by decide)⟩
